import Mathlib

/-!
Shallow embedding of src/src/UserAssociations.js (chat-service room-membership
core). Each method of the UserAssociations class is translated into a pure
Lean function over an explicit environment describing the outcomes of the
external collaborators (shared state store, transport layer, cluster bus) and
an explicit shared-store state. Promise rejection is modelled with Except;
fire-and-forget notifications (echoes, reports, consistency-failure events)
are collected into an event list in emission order. The concurrent sub-steps
of the Promise.all groups are interleaved deterministically in array order
(the spec notes a single instance interleaves, never parallel-executes, these
sub-steps); properties proved about event multiplicities are order-invariant.

The shared state store itself (userState / state / room objects) is code of
the repository that is not under src/; its operations are modelled from the
spec (section 3 and section 6): the membership record for one (room, user)
pair is the set of that user's socket ids in the room, njoined is its size,
and hasChanged is the 0-to-nonzero (or nonzero-to-0) presence transition.
-/

namespace ChatService

/-- Errors carried by rejected promises: generic store and transport failures,
the bluebird TimeoutError produced by a timed-out acknowledgment wait, and
ChatServiceError(code, context) as constructed in the source. -/
inductive Err where
  | store : Nat → Err
  | transport : Nat → Err
  | timeoutErr : Err
  | chatError : String → String → Err
  deriving DecidableEq, Repr

/-- Operation info passed to consistencyFailure: opType plus the optional
roomName / id fields found at the call sites, and the userName field that
consistencyFailure itself fills in. -/
structure OpInfo where
  opType : Option String
  roomName : Option String
  id : Option String
  userName : Option String
  deriving DecidableEq, Repr

/-- Observable emissions of the UserAssociations methods: the mixin report and
echo calls (UserReports via es6-mixin), the two consistency-failure server
events, the cluster-bus roomLeaveSocket emission, and the lock
acquisition/release pair realised by Promise.using over lockToRoom. -/
inductive Event where
  | lockAcquire : String → Event
  | lockRelease : String → Event
  | userJoinRoomReport : String → String → Event
  | socketJoinEcho : String → String → Nat → Bool → Event
  | socketLeftEcho : String → String → Nat → Option Bool → Event
  | userLeftRoomReport : String → String → Option Bool → Event
  | userRemovedReport : String → String → Option Bool → Event
  | socketDisconnectEcho : String → Nat → Event
  | storeConsistencyFailure : Err → OpInfo → Event
  | transportConsistencyFailure : Err → OpInfo → Event
  | busEmitLeave : String → String → Event
  deriving DecidableEq, Repr

/-- Shared-store membership record for one (room, user) pair, modelled from
the spec: the set (duplicate-free list) of the user's socket ids currently in
the room, and whether the user is on the room roster. -/
structure StoreState where
  sockets : List String
  roster : Bool
  deriving DecidableEq, Repr

/-- Modelled from the spec: userState.addSocketToRoom(id, room). Adds the
socket to the (room, user) membership record and returns the new njoined
count and whether the user's room presence transitioned 0 to 1. -/
def addSocketToRoom (s : StoreState) (id : String) : StoreState × Nat × Bool :=
  if id ∈ s.sockets then (s, s.sockets.length, false)
  else (⟨id :: s.sockets, s.roster⟩, s.sockets.length + 1, s.sockets.isEmpty)

/-- Modelled from the spec: userState.removeSocketFromRoom(id, room). Removes
the socket from the (room, user) membership record and returns the new
njoined count and whether the user's presence transitioned to 0. -/
def removeSocketFromRoom (s : StoreState) (id : String) : StoreState × Nat × Bool :=
  if id ∈ s.sockets then
    (⟨s.sockets.erase id, s.roster⟩, (s.sockets.erase id).length,
      (s.sockets.erase id).isEmpty)
  else (s, s.sockets.length, false)

/-- Embedding of consistencyFailure(error, operationInfo): sets userName on
the operation info, then emits transportConsistencyFailure when opType is
transportChannel and storeConsistencyFailure otherwise. It is a total
function: the reporting call always returns. -/
def consistencyFailure (userName : String) (error : Err) (info : OpInfo) : Event :=
  let filled : OpInfo := ⟨info.opType, info.roomName, info.id, some userName⟩
  if info.opType = some "transportChannel" then
    Event.transportConsistencyFailure error filled
  else
    Event.storeConsistencyFailure error filled

/-- Embedding of leaveChannel(id, channel): transport.leaveChannel with a
catch that reports a transportChannel consistency failure. It always
resolves; the event list is its only observable. -/
def leaveChannel (userName id channel : String) (fails : Option Err) : List Event :=
  match fails with
  | some e => [consistencyFailure userName e ⟨some "transportChannel", some channel, some id, none⟩]
  | none => []

/-- Embedding of leaveRoom(roomName) acting on the roster flag of the room:
state.getRoom then room.leave(userName); a room.leave error is reported as a
roomUserlist consistency failure, and catchReturn absorbs everything (a
getRoom error is absorbed without a report). Returns the updated roster flag
and the emitted events; it never rejects. -/
def leaveRoomB (userName roomName : String) (getRoomFails roomLeaveFails : Option Err)
    (roster : Bool) : Bool × List Event :=
  match getRoomFails with
  | some _ => (roster, [])
  | none =>
    match roomLeaveFails with
    | some e =>
      (roster, [consistencyFailure userName e ⟨some "roomUserlist", some roomName, none, none⟩])
    | none => (false, [])

/-- Embedding of getNotifySettings(roomName): getRoom then
getNotificationsInfo, with catchReturn({}); on any failure it resolves with
an empty object, whose enableUserlistUpdates field is undefined (none). -/
def getNotifySettings (res : Except Err Bool) : Option Bool :=
  match res with
  | Except.ok b => some b
  | Except.error _ => none

/-- Embedding of Promise.using(lock, body): lockToRoom may fail (for example
with a lock timeout), in which case the body never runs; once acquired, the
disposer releases the lock after the body settles, on success and on
rejection alike. -/
def withLock {α : Type} (roomName : String) (lockFails : Option Err) (s : StoreState)
    (body : StoreState → StoreState × List Event × Except Err α) :
    StoreState × List Event × Except Err α :=
  match lockFails with
  | some e => (s, [], Except.error e)
  | none =>
    let b := body s
    (b.1, Event.lockAcquire roomName :: (b.2.1 ++ [Event.lockRelease roomName]), b.2.2)

/-- Embedding of rollbackRoomJoin(error, roomName, id): it calls
userState.removeSocketFromRoom; a removal failure is caught, reported as a
userRooms consistency failure, and replaced by the array [1], so njoined is
treated as 1 and leaveRoom is skipped; when the removal succeeds and shows
njoined 0, leaveRoom runs. thenThrow re-raises the original error in every
case; the returned Err is the rejection reason of the rollback promise. -/
def rollbackRoomJoin (userName : String) (error : Err) (roomName id : String)
    (removeFails rbGetRoomFails rbRoomLeaveFails : Option Err) (s : StoreState) :
    StoreState × List Event × Err :=
  match removeFails with
  | some e =>
    (s, [consistencyFailure userName e ⟨some "userRooms", some roomName, none, none⟩], error)
  | none =>
    let r := removeSocketFromRoom s id
    if r.2.1 = 0 then
      let lr := leaveRoomB userName roomName rbGetRoomFails rbRoomLeaveFails r.1.roster
      (⟨r.1.sockets, lr.1⟩, lr.2, error)
    else (r.1, [], error)

/-- Environment for one joinSocketToRoom execution: the outcome of each
external call it makes, in source order (lockToRoom, state.getRoom,
room.join, the Promise.all triple, and the calls made by rollbackRoomJoin
when the triple fails). -/
structure JoinEnv where
  lockFails : Option Err
  getRoomFails : Option Err
  roomJoinFails : Option Err
  userlistUpdatesRes : Except Err Bool
  addFails : Option Err
  joinChannelFails : Option Err
  rbRemoveFails : Option Err
  rbGetRoomFails : Option Err
  rbRoomLeaveFails : Option Err

/-- The rejection reason of the join's Promise.all triple, when any member
fails. Bluebird rejects with the first rejection in time; one instance
interleaves the three sub-steps deterministically, modelled here in array
order: userlistUpdatesGet, addSocketToRoom, joinChannel. -/
def step3Err (env : JoinEnv) : Option Err :=
  match env.userlistUpdatesRes with
  | Except.error e => some e
  | Except.ok _ =>
    match env.addFails with
    | some e => some e
    | none => env.joinChannelFails

/-- Embedding of the coroutine body of joinSocketToRoom(id, roomName,
isLocalCall), run under the room lock by Promise.using: getRoom, then
room.join (adds the user to the roster), then the
Promise.all triple; all three members start, so a successful
addSocketToRoom mutates the store even when a sibling fails. On a triple
failure, rollbackRoomJoin runs and its rejection (the original error) is the
result. On success the echo and report calls are guarded exactly as in the
source: both only under hasChanged, the report additionally under
njoined equal 1 and enableUserlistUpdates; userlistUpdatesRes is
Except.ok on this path, so the error fallback of enable is never read. -/
def joinBody (userName id roomName : String) (isLocalCall : Bool)
    (env : JoinEnv) (s0 : StoreState) : StoreState × List Event × Except Err Nat :=
  match env.getRoomFails with
    | some e => (s0, [], Except.error e)
    | none =>
      match env.roomJoinFails with
      | some e => (s0, [], Except.error e)
      | none =>
        let s1 : StoreState := ⟨s0.sockets, true⟩
        let a := addSocketToRoom s1 id
        let sAdd := if env.addFails = none then a.1 else s1
        match step3Err env with
        | some e =>
          let rb := rollbackRoomJoin userName e roomName id env.rbRemoveFails
            env.rbGetRoomFails env.rbRoomLeaveFails sAdd
          (rb.1, rb.2.1, Except.error rb.2.2)
        | none =>
          let nj := a.2.1
          let hc := a.2.2
          let enable := match env.userlistUpdatesRes with
            | Except.ok b => b
            | Except.error _ => false
          let evs := if hc then
              (if (nj == 1) && enable then [Event.userJoinRoomReport userName roomName] else [])
              ++ [Event.socketJoinEcho id roomName nj isLocalCall]
            else []
          (sAdd, evs, Except.ok nj)

/-- Embedding of joinSocketToRoom(id, roomName, isLocalCall): the guarded
body under Promise.using of the room lock. -/
def joinSocketToRoom (userName id roomName : String) (isLocalCall : Bool)
    (env : JoinEnv) (s : StoreState) : StoreState × List Event × Except Err Nat :=
  withLock roomName env.lockFails s (joinBody userName id roomName isLocalCall env)

/-- Environment for one leaveSocketFromRoom execution. -/
structure LeaveEnv where
  lockFails : Option Err
  notifyRes : Except Err Bool
  removeFails : Option Err
  leaveChannelFails : Option Err
  lrGetRoomFails : Option Err
  lrRoomLeaveFails : Option Err

/-- Embedding of the coroutine body of leaveSocketFromRoom(id, roomName,
isLocalCall), run under the room lock by Promise.using. The Promise.all
triple runs: getNotifySettings (absorbs its own
errors), userState.removeSocketFromRoom (uncaught: its failure rejects the
whole leave), and leaveChannel (absorbs and reports its own errors, so its
events are emitted even when the removal fails). Then leaveRoom when njoined
reached 0, and the echo plus report under hasChanged. -/
def leaveBody (userName id roomName : String) (isLocalCall : Bool)
    (env : LeaveEnv) (s0 : StoreState) : StoreState × List Event × Except Err Nat :=
  let chEvents := leaveChannel userName id roomName env.leaveChannelFails
    let enable := getNotifySettings env.notifyRes
    match env.removeFails with
    | some e => (s0, chEvents, Except.error e)
    | none =>
      let r := removeSocketFromRoom s0 id
      let nj := r.2.1
      let hc := r.2.2
      let lr : StoreState × List Event :=
        if nj = 0 then
          let l := leaveRoomB userName roomName env.lrGetRoomFails env.lrRoomLeaveFails r.1.roster
          (⟨r.1.sockets, l.1⟩, l.2)
        else (r.1, [])
      let tail := if hc then
          [Event.socketLeftEcho id roomName nj (some isLocalCall),
           Event.userLeftRoomReport userName roomName enable]
        else []
      (lr.1, chEvents ++ lr.2 ++ tail, Except.ok nj)

/-- Embedding of leaveSocketFromRoom(id, roomName, isLocalCall): the guarded
body under Promise.using of the room lock. -/
def leaveSocketFromRoom (userName id roomName : String) (isLocalCall : Bool)
    (env : LeaveEnv) (s : StoreState) : StoreState × List Event × Except Err Nat :=
  withLock roomName env.lockFails s (leaveBody userName id roomName isLocalCall env)

/-- Behaviour of the cluster bus for one leaveChannelMessage call: the
acknowledgment event fires after t time units, never fires, or the
synchronous bus.emit throws. -/
inductive BusBehaviour where
  | ackAt : Nat → BusBehaviour
  | noAck : BusBehaviour
  | emitThrows : Err → BusBehaviour
  deriving DecidableEq, Repr

/-- Result of a bluebird promise together with the time at which it settles;
never models a wait whose awaited event does not fire. -/
inductive PResult (α : Type) where
  | settles : Nat → Except Err α → PResult α
  | never : PResult α
  deriving Repr

/-- Embedding of the Promise.try body of leaveChannelMessage: emit
roomLeaveSocket on the bus (a throw settles the promise immediately with
that error and no emission), then wait for the makeSocketRoomLeftName
acknowledgment event. -/
def tryEmitAndWait (id channel : String) (b : BusBehaviour) : List Event × PResult Unit :=
  match b with
  | BusBehaviour.emitThrows e => ([], PResult.settles 0 (Except.error e))
  | BusBehaviour.ackAt t => ([Event.busEmitLeave id channel], PResult.settles t (Except.ok ()))
  | BusBehaviour.noAck => ([Event.busEmitLeave id channel], PResult.never)

/-- Embedding of the bluebird timeout combinator: a promise that has not
settled by the timeout is replaced by a TimeoutError rejection at the
timeout instant. -/
def promiseTimeout {α : Type} (timeout : Nat) (p : PResult α) : Nat × Except Err α :=
  match p with
  | PResult.settles t r =>
    if t ≤ timeout then (t, r) else (timeout, Except.error Err.timeoutErr)
  | PResult.never => (timeout, Except.error Err.timeoutErr)

/-- Embedding of the bluebird catchReturn combinator with no arguments: a
rejection is absorbed and replaced by an undefined resolution. -/
def catchReturn {α : Type} (p : Nat × Except Err α) : Nat × Except Err Unit :=
  (p.1, Except.ok ())

/-- Embedding of leaveChannelMessage(id, channel): Promise.try of emit and
acknowledgment wait, then timeout(busAckTimeout), then catchReturn. Returns
the emitted events, the time at which the call settles, and its outcome. -/
def leaveChannelMessage (id channel : String) (busAckTimeout : Nat) (b : BusBehaviour) :
    List Event × Nat × Except Err Unit :=
  let ew := tryEmitAndWait id channel b
  let w := catchReturn (promiseTimeout busAckTimeout ew.2)
  (ew.1, w.1, w.2)

/-- Embedding of channelLeaveSockets(channel, ids): leaveChannelMessage for
each id under the asyncLimit concurrency bound, modelled sequentially; each
member always resolves, so the map always resolves. -/
def channelLeaveSockets (channel : String) (ids : List String) (busAckTimeout : Nat)
    (bus : Nat → BusBehaviour) : List Event :=
  (ids.enum.map (fun p => (leaveChannelMessage p.2 channel busAckTimeout (bus p.1)).1)).flatten

/-- Embedding of socketLeaveChannels(id, channels): leaveChannel for each
channel under the asyncLimit concurrency bound, modelled sequentially; each
member absorbs its own errors, so the map always resolves. -/
def socketLeaveChannels (userName id : String) (channels : List String)
    (fails : Nat → Option Err) : List Event :=
  (channels.enum.map (fun p => leaveChannel userName id p.2 (fails p.1))).flatten

/-- Pointwise update of the per-room roster view (which rooms list this user
as a member). -/
def updateRoster (r : String → Bool) (room : String) (v : Bool) : String → Bool :=
  fun x => if x = room then v else r x

/-- Collaborator outcomes for the cleanup of one room inside
removeUserSocket: the transport leaveChannel of the socketLeaveChannels
phase, and the leaveRoom and getNotifySettings calls of the per-room
Promise.map phase. -/
structure PerRoomEnv where
  chFails : Option Err
  lrGetRoomFails : Option Err
  lrRoomLeaveFails : Option Err
  notifyRes : Except Err Bool

/-- Embedding of one iteration of the Promise.map body of removeUserSocket:
the per-socket left echo fires for every room (isLocalCall absent); when the
user's remaining count in the room is 0, leaveRoom runs, then
getNotifySettings, then the userLeftRoomReport. -/
def cleanupRoom (userName id : String) (pr : PerRoomEnv) (roomName : String) (njoined : Nat)
    (rosters : String → Bool) : (String → Bool) × List Event :=
  let echo := Event.socketLeftEcho id roomName njoined none
  if njoined = 0 then
    let lr := leaveRoomB userName roomName pr.lrGetRoomFails pr.lrRoomLeaveFails (rosters roomName)
    let enable := getNotifySettings pr.notifyRes
    (updateRoster rosters roomName lr.1,
      echo :: (lr.2 ++ [Event.userLeftRoomReport userName roomName enable]))
  else (rosters, [echo])

/-- Embedding of the Promise.map of removeUserSocket over the removed rooms
paired with the user's remaining per-room socket counts, modelled
sequentially in input order with the room index selecting the per-room
collaborator outcomes. -/
def cleanupRooms (userName id : String) (roomEnv : Nat → PerRoomEnv) (idx : Nat)
    (rooms : List (String × Nat)) (rosters : String → Bool) :
    (String → Bool) × List Event :=
  match rooms with
  | [] => (rosters, [])
  | (roomName, nj) :: rest =>
    let c := cleanupRoom userName id (roomEnv idx) roomName nj rosters
    let r := cleanupRooms userName id roomEnv (idx + 1) rest c.1
    (r.1, c.2 ++ r.2)

/-- Environment for one removeUserSocket execution: the
userState.removeSocket outcome (the removed rooms paired with the user's
remaining count in each, and the remaining connection count), per-room
collaborator outcomes, and the final state.removeSocket outcome. -/
structure RemoveSocketEnv where
  userRemoveRes : Except Err (List (String × Nat) × Nat)
  roomEnv : Nat → PerRoomEnv
  stateRemoveFails : Option Err

/-- Embedding of the generator body of removeUserSocket (before the outer
catch): userState.removeSocket, then socketLeaveChannels over the removed
rooms, then the per-room cleanup map, then the disconnect echo and the final
state.removeSocket. An error from the first or last store call rejects the
run; the middle phases absorb their own errors. -/
def removeUserSocketRun (userName id : String) (env : RemoveSocketEnv)
    (rosters : String → Bool) : (String → Bool) × List Event × Except Err Unit :=
  match env.userRemoveRes with
  | Except.error e => (rosters, [], Except.error e)
  | Except.ok (rooms, nconnected) =>
    let chEvents := socketLeaveChannels userName id (rooms.map Prod.fst)
      (fun i => (env.roomEnv i).chFails)
    let cl := cleanupRooms userName id env.roomEnv 0 rooms rosters
    let evs := chEvents ++ cl.2 ++ [Event.socketDisconnectEcho id nconnected]
    match env.stateRemoveFails with
    | some e => (cl.1, evs, Except.error e)
    | none => (cl.1, evs, Except.ok ())

/-- Embedding of removeUserSocket(id): the run with an outer catch that
reports any escaping error as a userSockets consistency failure carrying the
socket id; consistencyFailure returns normally, so the call always
resolves. -/
def removeUserSocket (userName id : String) (env : RemoveSocketEnv)
    (rosters : String → Bool) : (String → Bool) × List Event × Except Err Unit :=
  let r := removeUserSocketRun userName id env rosters
  match r.2.2 with
  | Except.error e =>
    (r.1, r.2.1 ++ [consistencyFailure userName e ⟨some "userSockets", none, some id, none⟩],
      Except.ok ())
  | Except.ok _ => r

/-- Environment for one addUserSocket execution: state.addSocket,
userState.addSocket (resolving with the connection count), whether
transport.getSocket(id) is truthy, and the environment of the
removeUserSocket cleanup run on the no-socket path. -/
structure AddSocketEnv where
  stateAddFails : Option Err
  userAddRes : Except Err Nat
  hasSocket : Bool
  removeEnv : RemoveSocketEnv

/-- Embedding of addUserSocket(id): state.addSocket, then
userState.addSocket; if transport.getSocket(id) is falsy the full
removeUserSocket cleanup runs and the call rejects with
ChatServiceError(noSocket, connection); otherwise it resolves with
nconnected. -/
def addUserSocket (userName id : String) (env : AddSocketEnv)
    (rosters : String → Bool) : (String → Bool) × List Event × Except Err Nat :=
  match env.stateAddFails with
  | some e => (rosters, [], Except.error e)
  | none =>
    match env.userAddRes with
    | Except.error e => (rosters, [], Except.error e)
    | Except.ok nconnected =>
      if env.hasSocket then (rosters, [], Except.ok nconnected)
      else
        let r := removeUserSocket userName id env.removeEnv rosters
        (r.1, r.2.1, Except.error (Err.chatError "noSocket" "connection"))

/-- Embedding of removeUserSocketsFromRoom(roomName):
userState.removeAllSocketsFromRoom with a catch that reports a roomUserlist
consistency failure and resolves with undefined; the caller's guard turns
that undefined into the empty list. -/
def removeUserSocketsFromRoom (userName roomName : String)
    (res : Except Err (List String)) : List String × List Event :=
  match res with
  | Except.error e =>
    ([], [consistencyFailure userName e ⟨some "roomUserlist", some roomName, none, none⟩])
  | Except.ok ids => (ids, [])

/-- Environment for one removeFromRoom execution. -/
structure RemoveFromRoomEnv where
  lockFails : Option Err
  removeAllRes : Except Err (List String)
  busAckTimeout : Nat
  bus : Nat → BusBehaviour
  notifyRes : Except Err Bool
  lrGetRoomFails : Option Err
  lrRoomLeaveFails : Option Err

/-- Embedding of the coroutine body of removeFromRoom(roomName), run under
the room lock by Promise.using:
removeUserSocketsFromRoom (on success, the user's sockets leave the room's
shared-store tracking), channelLeaveSockets over the removed ids, the
userRemovedReport when any socket was removed, then the idempotent
leaveRoom; every phase absorbs its own errors, so the body always
resolves. -/
def removeFromRoomBody (userName roomName : String) (env : RemoveFromRoomEnv)
    (s0 : StoreState) : StoreState × List Event × Except Err Unit :=
  let rm := removeUserSocketsFromRoom userName roomName env.removeAllRes
    let s1 : StoreState := match env.removeAllRes with
      | Except.ok _ => ⟨[], s0.roster⟩
      | Except.error _ => s0
    let chEvents := channelLeaveSockets roomName rm.1 env.busAckTimeout env.bus
    let repEvents := if rm.1.length ≠ 0 then
        [Event.userRemovedReport userName roomName (getNotifySettings env.notifyRes)]
      else []
    let lr := leaveRoomB userName roomName env.lrGetRoomFails env.lrRoomLeaveFails s1.roster
    (⟨s1.sockets, lr.1⟩, rm.2 ++ chEvents ++ repEvents ++ lr.2, Except.ok ())

/-- Embedding of removeFromRoom(roomName): the guarded body under
Promise.using of the room lock. -/
def removeFromRoom (userName roomName : String) (env : RemoveFromRoomEnv)
    (s : StoreState) : StoreState × List Event × Except Err Unit :=
  withLock roomName env.lockFails s (removeFromRoomBody userName roomName env)

/-- Classifier for lock events. -/
def isLockEvent : Event → Bool
  | Event.lockAcquire _ => true
  | Event.lockRelease _ => true
  | _ => false

/-- Classifier for per-socket joined echoes. -/
def isJoinEcho : Event → Bool
  | Event.socketJoinEcho _ _ _ _ => true
  | _ => false

/-- Classifier for per-socket left echoes. -/
def isLeftEcho : Event → Bool
  | Event.socketLeftEcho _ _ _ _ => true
  | _ => false

/-- Classifier for user-left-room reports. -/
def isUserLeftReport : Event → Bool
  | Event.userLeftRoomReport _ _ _ => true
  | _ => false

/-- Classifier for consistency-failure events of either kind. -/
def isConsistencyFailure : Event → Bool
  | Event.storeConsistencyFailure _ _ => true
  | Event.transportConsistencyFailure _ _ => true
  | _ => false

/-- Classifier for consistency-failure events tagged with opType
userSockets. -/
def isUserSocketsFailure : Event → Bool
  | Event.storeConsistencyFailure _ i => i.opType == some "userSockets"
  | Event.transportConsistencyFailure _ i => i.opType == some "userSockets"
  | _ => false

/-- C10: every consistency-failure report sets the acting user's name on the
operation info and is emitted as transportConsistencyFailure exactly when
opType is transportChannel and as storeConsistencyFailure for every other
opType; the reporting function is total, always producing exactly one
event. -/
theorem c10_consistencyFailure_shape (userName : String) (e : Err) (info : OpInfo) :
    (info.opType = some "transportChannel" ∧
      consistencyFailure userName e info =
        Event.transportConsistencyFailure e
          ⟨info.opType, info.roomName, info.id, some userName⟩) ∨
    (info.opType ≠ some "transportChannel" ∧
      consistencyFailure userName e info =
        Event.storeConsistencyFailure e
          ⟨info.opType, info.roomName, info.id, some userName⟩) := by
  by_cases h : info.opType = some "transportChannel"
  · exact Or.inl ⟨h, by simp [consistencyFailure, h]⟩
  · exact Or.inr ⟨h, by simp [consistencyFailure, h]⟩

/-- C4: for every bus behaviour (acknowledgment arriving at any time, never
arriving, or the publish throwing), leaveChannelMessage resolves without
error and the acknowledgment wait is bounded by the configured
bus-acknowledgment timeout. -/
theorem c4_leaveChannelMessage_total (id channel : String) (busAckTimeout : Nat)
    (b : BusBehaviour) :
    (leaveChannelMessage id channel busAckTimeout b).2.2 = Except.ok () ∧
    (leaveChannelMessage id channel busAckTimeout b).2.1 ≤ busAckTimeout := by
  refine ⟨rfl, ?_⟩
  cases b with
  | ackAt t =>
    simp only [leaveChannelMessage, tryEmitAndWait, promiseTimeout, catchReturn]
    split
    · omega
    · omega
  | noAck => simp [leaveChannelMessage, tryEmitAndWait, promiseTimeout, catchReturn]
  | emitThrows e =>
    simp [leaveChannelMessage, tryEmitAndWait, promiseTimeout, catchReturn]

/-- Occurrence count of one event in an emission list. -/
def countEvent (a : Event) (l : List Event) : Nat :=
  (l.filter (fun ev => ev = a)).length

theorem countEvent_nil (a : Event) : countEvent a [] = 0 := rfl

theorem countEvent_append (a : Event) (l1 l2 : List Event) :
    countEvent a (l1 ++ l2) = countEvent a l1 + countEvent a l2 := by
  simp [countEvent, List.filter_append]

theorem countEvent_eq_zero (a : Event) (l : List Event)
    (h : ∀ ev ∈ l, ev ≠ a) : countEvent a l = 0 := by
  simp only [countEvent, List.length_eq_zero]
  rw [List.filter_eq_nil_iff]
  intro ev hev
  simp [h ev hev]

theorem isLockEvent_consistencyFailure (u : String) (e : Err) (i : OpInfo) :
    isLockEvent (consistencyFailure u e i) = false := by
  simp only [consistencyFailure]
  split <;> rfl

theorem noLock_leaveChannel (u id ch : String) (f : Option Err) :
    ∀ ev ∈ leaveChannel u id ch f, isLockEvent ev = false := by
  cases f <;> simp [leaveChannel, isLockEvent_consistencyFailure]

theorem noLock_leaveRoomB (u r : String) (g l : Option Err) (roster : Bool) :
    ∀ ev ∈ (leaveRoomB u r g l roster).2, isLockEvent ev = false := by
  cases g <;> cases l <;> simp [leaveRoomB, isLockEvent_consistencyFailure]

theorem noLock_rollbackRoomJoin (u : String) (e : Err) (r id : String)
    (rf gf lf : Option Err) (s : StoreState) :
    ∀ ev ∈ (rollbackRoomJoin u e r id rf gf lf s).2.1, isLockEvent ev = false := by
  cases rf with
  | some e2 => simp [rollbackRoomJoin, isLockEvent_consistencyFailure]
  | none =>
    simp only [rollbackRoomJoin]
    split
    · exact noLock_leaveRoomB u r gf lf _
    · simp

theorem noLock_joinBody (u id r : String) (loc : Bool) (env : JoinEnv) (s0 : StoreState) :
    ∀ ev ∈ (joinBody u id r loc env s0).2.1, isLockEvent ev = false := by
  simp only [joinBody]
  split
  · simp
  · split
    · simp
    · split
      · exact noLock_rollbackRoomJoin _ _ _ _ _ _ _ _
      · intro ev hev
        simp only at hev
        split at hev
        · rcases List.mem_append.mp hev with h | h
          · split at h
            · simp at h
              subst h
              rfl
            · simp at h
          · simp at h
            subst h
            rfl
        · simp at hev

theorem noLock_leaveBody (u id r : String) (loc : Bool) (env : LeaveEnv) (s0 : StoreState) :
    ∀ ev ∈ (leaveBody u id r loc env s0).2.1, isLockEvent ev = false := by
  simp only [leaveBody]
  split
  · exact noLock_leaveChannel u id r env.leaveChannelFails
  · intro ev hev
    simp only at hev
    rcases List.mem_append.mp hev with h | h
    · rcases List.mem_append.mp h with h2 | h2
      · exact noLock_leaveChannel u id r env.leaveChannelFails ev h2
      · split at h2
        · exact noLock_leaveRoomB u r env.lrGetRoomFails env.lrRoomLeaveFails _ ev h2
        · simp at h2
    · split at h
      · simp at h
        rcases h with h | h <;> (subst h; rfl)
      · simp at h

theorem noLock_channelLeaveSockets (ch : String) (ids : List String) (t : Nat)
    (bus : Nat → BusBehaviour) :
    ∀ ev ∈ channelLeaveSockets ch ids t bus, isLockEvent ev = false := by
  intro ev hev
  simp only [channelLeaveSockets, List.mem_flatten, List.mem_map] at hev
  obtain ⟨l, ⟨p, _, hl⟩, hmem⟩ := hev
  subst hl
  revert hmem
  cases bus p.1 <;> simp [leaveChannelMessage, tryEmitAndWait] <;>
    (intro h; subst h; rfl)

theorem noLock_removeFromRoomBody (u r : String) (env : RemoveFromRoomEnv)
    (s0 : StoreState) :
    ∀ ev ∈ (removeFromRoomBody u r env s0).2.1, isLockEvent ev = false := by
  intro ev hev
  simp only [removeFromRoomBody] at hev
  rcases List.mem_append.mp hev with h | h
  · rcases List.mem_append.mp h with h2 | h2
    · rcases List.mem_append.mp h2 with h3 | h3
      · revert h3
        cases env.removeAllRes with
        | error e =>
          simp [removeUserSocketsFromRoom]
          intro h3
          subst h3
          exact isLockEvent_consistencyFailure _ _ _
        | ok ids => simp [removeUserSocketsFromRoom]
      · exact noLock_channelLeaveSockets r _ env.busAckTimeout env.bus ev h3
    · revert h2
      split
      · intro h2
        simp at h2
        subst h2
        rfl
      · intro h2
        simp at h2
  · exact noLock_leaveRoomB u r env.lrGetRoomFails env.lrRoomLeaveFails _ ev h

theorem withLock_count {α : Type} (roomName : String) (lockFails : Option Err)
    (s : StoreState) (body : StoreState → StoreState × List Event × Except Err α)
    (hb : ∀ ev ∈ (body s).2.1, isLockEvent ev = false) :
    countEvent (Event.lockRelease roomName) (withLock roomName lockFails s body).2.1 =
      (if lockFails = none then 1 else 0) ∧
    countEvent (Event.lockAcquire roomName) (withLock roomName lockFails s body).2.1 =
      (if lockFails = none then 1 else 0) := by
  cases lockFails with
  | some e => simp [withLock, countEvent]
  | none =>
    have hmidR : countEvent (Event.lockRelease roomName) (body s).2.1 = 0 := by
      apply countEvent_eq_zero
      intro ev hev heq
      have := hb ev hev
      rw [heq] at this
      simp [isLockEvent] at this
    have hmidA : countEvent (Event.lockAcquire roomName) (body s).2.1 = 0 := by
      apply countEvent_eq_zero
      intro ev hev heq
      have := hb ev hev
      rw [heq] at this
      simp [isLockEvent] at this
    constructor
    · show countEvent _ (Event.lockAcquire roomName :: ((body s).2.1 ++ [Event.lockRelease roomName])) = _
      have : Event.lockAcquire roomName :: ((body s).2.1 ++ [Event.lockRelease roomName]) =
          [Event.lockAcquire roomName] ++ (body s).2.1 ++ [Event.lockRelease roomName] := by simp
      rw [this, countEvent_append, countEvent_append, hmidR]
      simp [countEvent]
    · show countEvent _ (Event.lockAcquire roomName :: ((body s).2.1 ++ [Event.lockRelease roomName])) = _
      have : Event.lockAcquire roomName :: ((body s).2.1 ++ [Event.lockRelease roomName]) =
          [Event.lockAcquire roomName] ++ (body s).2.1 ++ [Event.lockRelease roomName] := by simp
      rw [this, countEvent_append, countEvent_append, hmidA]
      simp [countEvent]

/-- C8: in each of joinSocketToRoom, leaveSocketFromRoom and removeFromRoom,
whenever the per-room lock is acquired it is released exactly once, on every
control-flow exit of the guarded body (normal return and rejection alike,
the environment being arbitrary), and lock acquisitions and releases always
balance. -/
theorem c8_lock_release_balanced (userName id roomName : String) (isLocalCall : Bool)
    (jenv : JoinEnv) (lenv : LeaveEnv) (renv : RemoveFromRoomEnv) (s : StoreState) :
    (countEvent (Event.lockRelease roomName)
        (joinSocketToRoom userName id roomName isLocalCall jenv s).2.1 =
      (if jenv.lockFails = none then 1 else 0) ∧
     countEvent (Event.lockAcquire roomName)
        (joinSocketToRoom userName id roomName isLocalCall jenv s).2.1 =
      (if jenv.lockFails = none then 1 else 0)) ∧
    (countEvent (Event.lockRelease roomName)
        (leaveSocketFromRoom userName id roomName isLocalCall lenv s).2.1 =
      (if lenv.lockFails = none then 1 else 0) ∧
     countEvent (Event.lockAcquire roomName)
        (leaveSocketFromRoom userName id roomName isLocalCall lenv s).2.1 =
      (if lenv.lockFails = none then 1 else 0)) ∧
    (countEvent (Event.lockRelease roomName)
        (removeFromRoom userName roomName renv s).2.1 =
      (if renv.lockFails = none then 1 else 0) ∧
     countEvent (Event.lockAcquire roomName)
        (removeFromRoom userName roomName renv s).2.1 =
      (if renv.lockFails = none then 1 else 0)) :=
  ⟨withLock_count roomName jenv.lockFails s _ (noLock_joinBody userName id roomName isLocalCall jenv s),
   withLock_count roomName lenv.lockFails s _ (noLock_leaveBody userName id roomName isLocalCall lenv s),
   withLock_count roomName renv.lockFails s _ (noLock_removeFromRoomBody userName roomName renv s)⟩

theorem withLock_result {α : Type} (roomName : String) (lockFails : Option Err)
    (s : StoreState) (body : StoreState → StoreState × List Event × Except Err α)
    (h : lockFails = none) :
    (withLock roomName lockFails s body).2.2 = (body s).2.2 := by
  subst h; rfl

theorem withLock_state {α : Type} (roomName : String) (lockFails : Option Err)
    (s : StoreState) (body : StoreState → StoreState × List Event × Except Err α)
    (h : lockFails = none) :
    (withLock roomName lockFails s body).1 = (body s).1 := by
  subst h; rfl

theorem withLock_events {α : Type} (roomName : String) (lockFails : Option Err)
    (s : StoreState) (body : StoreState → StoreState × List Event × Except Err α)
    (h : lockFails = none) :
    (withLock roomName lockFails s body).2.1 =
      Event.lockAcquire roomName :: ((body s).2.1 ++ [Event.lockRelease roomName]) := by
  subst h; rfl

theorem joinBody_success (u id r : String) (loc : Bool) (env : JoinEnv) (s0 : StoreState)
    (enable : Bool) (hGR : env.getRoomFails = none) (hRJ : env.roomJoinFails = none)
    (hUl : env.userlistUpdatesRes = Except.ok enable)
    (hAdd : env.addFails = none) (hCh : env.joinChannelFails = none) :
    joinBody u id r loc env s0 =
      ((addSocketToRoom ⟨s0.sockets, true⟩ id).1,
       (if (addSocketToRoom ⟨s0.sockets, true⟩ id).2.2 then
          (if ((addSocketToRoom ⟨s0.sockets, true⟩ id).2.1 == 1) && enable then
            [Event.userJoinRoomReport u r] else [])
          ++ [Event.socketJoinEcho id r (addSocketToRoom ⟨s0.sockets, true⟩ id).2.1 loc]
        else []),
       Except.ok (addSocketToRoom ⟨s0.sockets, true⟩ id).2.1) := by
  simp only [joinBody, step3Err, hGR, hRJ, hUl, hAdd, hCh, if_true]

theorem joinBody_step3_failure (u id r : String) (loc : Bool) (env : JoinEnv)
    (s0 : StoreState) (e : Err)
    (hGR : env.getRoomFails = none) (hRJ : env.roomJoinFails = none)
    (hFail : step3Err env = some e) :
    joinBody u id r loc env s0 =
      ((rollbackRoomJoin u e r id env.rbRemoveFails env.rbGetRoomFails env.rbRoomLeaveFails
          (if env.addFails = none
            then (addSocketToRoom ⟨s0.sockets, true⟩ id).1
            else ⟨s0.sockets, true⟩)).1,
       (rollbackRoomJoin u e r id env.rbRemoveFails env.rbGetRoomFails env.rbRoomLeaveFails
          (if env.addFails = none
            then (addSocketToRoom ⟨s0.sockets, true⟩ id).1
            else ⟨s0.sockets, true⟩)).2.1,
       Except.error
         (rollbackRoomJoin u e r id env.rbRemoveFails env.rbGetRoomFails env.rbRoomLeaveFails
          (if env.addFails = none
            then (addSocketToRoom ⟨s0.sockets, true⟩ id).1
            else ⟨s0.sockets, true⟩)).2.2) := by
  simp only [joinBody, hGR, hRJ, hFail]

theorem rollbackRoomJoin_rethrows (u : String) (e : Err) (r id : String)
    (rf gf lf : Option Err) (s : StoreState) :
    (rollbackRoomJoin u e r id rf gf lf s).2.2 = e := by
  cases rf with
  | some e2 => rfl
  | none =>
    simp only [rollbackRoomJoin]
    split <;> rfl

/-- C5 (confirmed): on every successful joinSocketToRoom execution, the
user-joined-room report is emitted exactly when the increment's hasChanged
is true, its njoined equals 1 and notification updates are enabled, and the
call resolves with the njoined value returned by the increment. -/
theorem c5_join_report_exact (userName id roomName : String) (isLocalCall : Bool)
    (env : JoinEnv) (s : StoreState) (enable : Bool)
    (hLock : env.lockFails = none)
    (hGR : env.getRoomFails = none) (hRJ : env.roomJoinFails = none)
    (hUl : env.userlistUpdatesRes = Except.ok enable)
    (hAdd : env.addFails = none) (hCh : env.joinChannelFails = none) :
    (joinSocketToRoom userName id roomName isLocalCall env s).2.2 =
      Except.ok (addSocketToRoom ⟨s.sockets, true⟩ id).2.1 ∧
    (Event.userJoinRoomReport userName roomName ∈
        (joinSocketToRoom userName id roomName isLocalCall env s).2.1 ↔
      (addSocketToRoom ⟨s.sockets, true⟩ id).2.2 = true ∧
      (addSocketToRoom ⟨s.sockets, true⟩ id).2.1 = 1 ∧ enable = true) := by
  have hbody := joinBody_success userName id roomName isLocalCall env s enable
    hGR hRJ hUl hAdd hCh
  constructor
  · rw [joinSocketToRoom, withLock_result _ _ _ _ hLock, hbody]
  · rw [joinSocketToRoom, withLock_events _ _ _ _ hLock, hbody]
    simp only [List.mem_cons, List.mem_append, List.mem_singleton]
    constructor
    · intro h
      rcases h with h | h | h
      · exact absurd h (by simp)
      · revert h
        split
        · rename_i hhc
          intro h
          rcases List.mem_append.mp h with h2 | h2
          · revert h2
            split
            · rename_i hguard
              intro h2
              simp at h2
              simp only [Bool.and_eq_true, beq_iff_eq] at hguard
              exact ⟨hhc, hguard.1, hguard.2⟩
            · intro h2
              simp at h2
          · simp at h2
        · intro h
          simp at h
      · exact absurd h (by simp)
    · intro ⟨hhc, hnj, hen⟩
      refine Or.inr (Or.inl ?_)
      rw [hhc]
      simp only [if_true]
      apply List.mem_append.mpr
      refine Or.inl ?_
      rw [hnj, hen]
      simp

/-- C2 amended (the echo is emitted exactly when hasChanged is true): on
every successful joinSocketToRoom execution, the per-socket joined echo,
tagged with isLocalCall, is emitted if and only if the increment reported
hasChanged. -/
theorem c2_join_echo_iff_hasChanged (userName id roomName : String) (isLocalCall : Bool)
    (env : JoinEnv) (s : StoreState) (enable : Bool)
    (hLock : env.lockFails = none)
    (hGR : env.getRoomFails = none) (hRJ : env.roomJoinFails = none)
    (hUl : env.userlistUpdatesRes = Except.ok enable)
    (hAdd : env.addFails = none) (hCh : env.joinChannelFails = none) :
    (Event.socketJoinEcho id roomName (addSocketToRoom ⟨s.sockets, true⟩ id).2.1 isLocalCall ∈
        (joinSocketToRoom userName id roomName isLocalCall env s).2.1) ↔
      (addSocketToRoom ⟨s.sockets, true⟩ id).2.2 = true := by
  have hbody := joinBody_success userName id roomName isLocalCall env s enable
    hGR hRJ hUl hAdd hCh
  rw [joinSocketToRoom, withLock_events _ _ _ _ hLock, hbody]
  simp only [List.mem_cons, List.mem_append, List.mem_singleton]
  constructor
  · intro h
    rcases h with h | h | h
    · exact absurd h (by simp)
    · revert h
      split
      · rename_i hhc
        intro _
        exact hhc
      · intro h
        simp at h
    · exact absurd h (by simp)
  · intro hhc
    refine Or.inr (Or.inl ?_)
    rw [hhc]
    simp

/-- C2 counterexample: a second socket of the same user joining the same
room succeeds (resolving with njoined 2) yet emits no per-socket joined
echo, because the echo call sits inside the hasChanged guard in the
source. -/
theorem c2_counterexample :
    (joinSocketToRoom "u" "s2" "lobby" true
        ⟨none, none, none, Except.ok true, none, none, none, none, none⟩
        ⟨["s1"], true⟩).2.2 = Except.ok 2 ∧
    ((joinSocketToRoom "u" "s2" "lobby" true
        ⟨none, none, none, Except.ok true, none, none, none, none, none⟩
        ⟨["s1"], true⟩).2.1.filter isJoinEcho) = [] := by
  constructor <;> rfl

theorem removeSocketFromRoom_sockets (s : StoreState) (id : String) :
    (removeSocketFromRoom s id).1.sockets = s.sockets.erase id := by
  simp only [removeSocketFromRoom]
  split
  · rfl
  · rename_i h
    exact (List.erase_of_not_mem h).symm

theorem addSocketToRoom_of_not_mem (s : StoreState) (id : String) (h : id ∉ s.sockets) :
    (addSocketToRoom s id).1 = ⟨id :: s.sockets, s.roster⟩ := by
  simp [addSocketToRoom, h]

theorem rollbackRoomJoin_sockets (u : String) (e : Err) (r id : String)
    (gf lf : Option Err) (s : StoreState) :
    (rollbackRoomJoin u e r id none gf lf s).1.sockets = s.sockets.erase id := by
  simp only [rollbackRoomJoin]
  split
  · exact removeSocketFromRoom_sockets s id
  · exact removeSocketFromRoom_sockets s id

/-- C1 counterexample: a join in which the transport subscribe fails after a
successful shared-store increment, and in which the compensating removal
itself fails, leaves the shared-store membership at one socket although it
was empty before the join attempt; the claim's unconditional count
restoration is false, while the original error is still the one
re-raised. -/
theorem c1_counterexample :
    (joinSocketToRoom "u" "s1" "lobby" true
        ⟨none, none, none, Except.ok true, none, some (Err.transport 0),
          some (Err.store 7), none, none⟩
        ⟨[], false⟩).1.sockets = ["s1"] ∧
    (joinSocketToRoom "u" "s1" "lobby" true
        ⟨none, none, none, Except.ok true, none, some (Err.transport 0),
          some (Err.store 7), none, none⟩
        ⟨[], false⟩).2.2 = Except.error (Err.transport 0) := by
  constructor <;> rfl

/-- C1 amended: for a socket not already in the room, when any of the three
concurrent step-3 operations fails, the original error (never the
compensation's outcome) is re-raised to the join caller; provided the
compensating removal succeeds, the shared-store count for the pair is
restored to its pre-join value; and when furthermore the removal shows
njoined reached 0 and the roster removal succeeds, the user is removed from
the room roster. -/
theorem c1_compensation (userName id roomName : String) (isLocalCall : Bool)
    (env : JoinEnv) (s : StoreState) (e : Err)
    (hNotIn : id ∉ s.sockets)
    (hLock : env.lockFails = none) (hGR : env.getRoomFails = none)
    (hRJ : env.roomJoinFails = none) (hFail : step3Err env = some e) :
    (joinSocketToRoom userName id roomName isLocalCall env s).2.2 = Except.error e ∧
    (env.rbRemoveFails = none →
      (joinSocketToRoom userName id roomName isLocalCall env s).1.sockets = s.sockets) ∧
    (env.rbRemoveFails = none → env.rbGetRoomFails = none →
      env.rbRoomLeaveFails = none → s.sockets = [] →
      (joinSocketToRoom userName id roomName isLocalCall env s).1.roster = false) := by
  have hbody := joinBody_step3_failure userName id roomName isLocalCall env s e hGR hRJ hFail
  refine ⟨?_, ?_, ?_⟩
  · rw [joinSocketToRoom, withLock_result _ _ _ _ hLock, hbody]
    rw [rollbackRoomJoin_rethrows]
  · intro hRb
    rw [joinSocketToRoom, withLock_state _ _ _ _ hLock, hbody]
    simp only [hRb]
    by_cases hAdd : env.addFails = none
    · rw [if_pos hAdd, addSocketToRoom_of_not_mem ⟨s.sockets, true⟩ id hNotIn,
        rollbackRoomJoin_sockets]
      simp
    · rw [if_neg hAdd, rollbackRoomJoin_sockets]
      exact List.erase_of_not_mem hNotIn
  · intro hRb hGf hLf hEmpty
    rw [joinSocketToRoom, withLock_state _ _ _ _ hLock, hbody]
    simp only [hRb, hGf, hLf]
    by_cases hAdd : env.addFails = none
    · rw [if_pos hAdd, addSocketToRoom_of_not_mem ⟨s.sockets, true⟩ id hNotIn]
      simp [rollbackRoomJoin, removeSocketFromRoom, leaveRoomB, hEmpty]
    · rw [if_neg hAdd]
      simp [rollbackRoomJoin, removeSocketFromRoom, leaveRoomB, hEmpty, hNotIn]

/-- Witness for the amended C1 at a concrete input: transport subscribe
fails, compensation succeeds. -/
theorem c1_compensation_witness :
    ("s1" ∉ (⟨[], false⟩ : StoreState).sockets) ∧
    step3Err ⟨none, none, none, Except.ok true, none, some (Err.transport 0),
        none, none, none⟩ = some (Err.transport 0) ∧
    ((joinSocketToRoom "u" "s1" "lobby" true
        ⟨none, none, none, Except.ok true, none, some (Err.transport 0), none, none, none⟩
        ⟨[], false⟩).2.2 = Except.error (Err.transport 0) ∧
     ((⟨none, none, none, Except.ok true, none, some (Err.transport 0), none, none, none⟩ :
          JoinEnv).rbRemoveFails = none →
      (joinSocketToRoom "u" "s1" "lobby" true
        ⟨none, none, none, Except.ok true, none, some (Err.transport 0), none, none, none⟩
        ⟨[], false⟩).1.sockets = (⟨[], false⟩ : StoreState).sockets) ∧
     ((⟨none, none, none, Except.ok true, none, some (Err.transport 0), none, none, none⟩ :
          JoinEnv).rbRemoveFails = none →
      (⟨none, none, none, Except.ok true, none, some (Err.transport 0), none, none, none⟩ :
          JoinEnv).rbGetRoomFails = none →
      (⟨none, none, none, Except.ok true, none, some (Err.transport 0), none, none, none⟩ :
          JoinEnv).rbRoomLeaveFails = none →
      (⟨[], false⟩ : StoreState).sockets = [] →
      (joinSocketToRoom "u" "s1" "lobby" true
        ⟨none, none, none, Except.ok true, none, some (Err.transport 0), none, none, none⟩
        ⟨[], false⟩).1.roster = false)) :=
  ⟨by simp, rfl,
    c1_compensation "u" "s1" "lobby" true
      ⟨none, none, none, Except.ok true, none, some (Err.transport 0), none, none, none⟩
      ⟨[], false⟩ (Err.transport 0) (by simp) rfl rfl rfl rfl⟩

/-- C3 counterexample: a leave in which the shared-store decrement fails
rejects to the caller with that error; the error is neither absorbed nor
reported through the consistency-failure channel, refuting the claim that
every sub-step error of leave is absorbed. -/
theorem c3_counterexample :
    (leaveSocketFromRoom "u" "s1" "lobby" true
        ⟨none, Except.ok true, some (Err.store 3), none, none, none⟩
        ⟨["s1"], true⟩).2.2 = Except.error (Err.store 3) ∧
    ((leaveSocketFromRoom "u" "s1" "lobby" true
        ⟨none, Except.ok true, some (Err.store 3), none, none, none⟩
        ⟨["s1"], true⟩).2.1.filter isConsistencyFailure) = [] := by
  constructor <;> rfl

/-- C3 amended: once the room lock is acquired, a leaveSocketFromRoom
resolves (with the decremented njoined) whenever the shared-store decrement
succeeds, whatever the notification-config read, transport unsubscribe and
room-roster removal do; a transport unsubscribe error is absorbed and
reported as a transportChannel consistency failure; a room-roster removal
error is absorbed and reported as a roomUserlist consistency failure; but a
shared-store decrement error is propagated to the caller unreported. -/
theorem c3_leave_best_effort (userName id roomName : String) (isLocalCall : Bool)
    (env : LeaveEnv) (s : StoreState) (hLock : env.lockFails = none) :
    (env.removeFails = none →
      (leaveSocketFromRoom userName id roomName isLocalCall env s).2.2 =
        Except.ok (removeSocketFromRoom s id).2.1) ∧
    (∀ e, env.leaveChannelFails = some e →
      consistencyFailure userName e ⟨some "transportChannel", some roomName, some id, none⟩ ∈
        (leaveSocketFromRoom userName id roomName isLocalCall env s).2.1) ∧
    (∀ e, env.removeFails = none → env.lrGetRoomFails = none →
      env.lrRoomLeaveFails = some e → (removeSocketFromRoom s id).2.1 = 0 →
      consistencyFailure userName e ⟨some "roomUserlist", some roomName, none, none⟩ ∈
        (leaveSocketFromRoom userName id roomName isLocalCall env s).2.1) ∧
    (∀ e, env.removeFails = some e →
      (leaveSocketFromRoom userName id roomName isLocalCall env s).2.2 =
        Except.error e) := by
  refine ⟨?_, ?_, ?_, ?_⟩
  · intro hRm
    rw [leaveSocketFromRoom, withLock_result _ _ _ _ hLock]
    simp only [leaveBody, hRm]
  · intro e hCh
    rw [leaveSocketFromRoom, withLock_events _ _ _ _ hLock]
    refine List.mem_cons_of_mem _ (List.mem_append_left _ ?_)
    cases hRm : env.removeFails with
    | some e2 =>
      simp only [leaveBody, hRm, hCh]
      simp [leaveChannel]
    | none =>
      simp only [leaveBody, hRm, hCh]
      simp [leaveChannel, List.mem_append]
  · intro e hRm hGf hLf hNj
    rw [leaveSocketFromRoom, withLock_events _ _ _ _ hLock]
    refine List.mem_cons_of_mem _ (List.mem_append_left _ ?_)
    simp only [leaveBody, hRm, hNj]
    simp [leaveRoomB, hGf, hLf, List.mem_append]
  · intro e hRm
    rw [leaveSocketFromRoom, withLock_result _ _ _ _ hLock]
    simp only [leaveBody, hRm]

/-- Witness for the amended C3 at a concrete input: decrement succeeds,
transport unsubscribe fails. -/
theorem c3_leave_best_effort_witness :
    (leaveSocketFromRoom "u" "s1" "lobby" true
        ⟨none, Except.ok true, none, some (Err.transport 1), none, none⟩
        ⟨["s1"], true⟩).2.2 =
      Except.ok (removeSocketFromRoom ⟨["s1"], true⟩ "s1").2.1 ∧
    consistencyFailure "u" (Err.transport 1)
        ⟨some "transportChannel", some "lobby", some "s1", none⟩ ∈
      (leaveSocketFromRoom "u" "s1" "lobby" true
        ⟨none, Except.ok true, none, some (Err.transport 1), none, none⟩
        ⟨["s1"], true⟩).2.1 :=
  ⟨(c3_leave_best_effort "u" "s1" "lobby" true
      ⟨none, Except.ok true, none, some (Err.transport 1), none, none⟩
      ⟨["s1"], true⟩ rfl).1 rfl,
   (c3_leave_best_effort "u" "s1" "lobby" true
      ⟨none, Except.ok true, none, some (Err.transport 1), none, none⟩
      ⟨["s1"], true⟩ rfl).2.1 (Err.transport 1) rfl⟩

theorem noUS_leaveChannel (u id ch : String) (f : Option Err) :
    ∀ ev ∈ leaveChannel u id ch f, isUserSocketsFailure ev = false := by
  cases f <;> simp [leaveChannel, consistencyFailure, isUserSocketsFailure]

theorem noUS_leaveRoomB (u r : String) (g l : Option Err) (roster : Bool) :
    ∀ ev ∈ (leaveRoomB u r g l roster).2, isUserSocketsFailure ev = false := by
  cases g <;> cases l <;>
    simp [leaveRoomB, consistencyFailure, isUserSocketsFailure]

theorem noUS_socketLeaveChannels (u id : String) (chs : List String)
    (fails : Nat → Option Err) :
    ∀ ev ∈ socketLeaveChannels u id chs fails, isUserSocketsFailure ev = false := by
  intro ev hev
  simp only [socketLeaveChannels, List.mem_flatten, List.mem_map] at hev
  obtain ⟨l, ⟨p, _, hl⟩, hmem⟩ := hev
  subst hl
  exact noUS_leaveChannel u id p.2 (fails p.1) ev hmem

theorem noUS_cleanupRooms (u id : String) (roomEnv : Nat → PerRoomEnv) (idx : Nat)
    (rooms : List (String × Nat)) (rosters : String → Bool) :
    ∀ ev ∈ (cleanupRooms u id roomEnv idx rooms rosters).2,
      isUserSocketsFailure ev = false := by
  induction rooms generalizing idx rosters with
  | nil => simp [cleanupRooms]
  | cons hd tl ih =>
    intro ev hev
    obtain ⟨roomName, nj⟩ := hd
    simp only [cleanupRooms] at hev
    rcases List.mem_append.mp hev with h | h
    · revert h
      simp only [cleanupRoom]
      split
      · intro h
        rcases List.mem_cons.mp h with h2 | h2
        · subst h2; rfl
        · rcases List.mem_append.mp h2 with h3 | h3
          · exact noUS_leaveRoomB u roomName _ _ _ ev h3
          · simp at h3; subst h3; rfl
      · intro h
        simp at h; subst h; rfl
    · exact ih (idx + 1) _ ev h

theorem noUS_removeUserSocketRun (u id : String) (env : RemoveSocketEnv)
    (rosters : String → Bool) :
    (removeUserSocketRun u id env rosters).2.1.filter isUserSocketsFailure = [] := by
  rw [List.filter_eq_nil_iff]
  intro ev hev
  revert hev
  cases hres : env.userRemoveRes with
  | error e => simp [removeUserSocketRun, hres]
  | ok v =>
    obtain ⟨rooms, nconnected⟩ := v
    cases hfin : env.stateRemoveFails <;>
      · simp only [removeUserSocketRun, hres, hfin]
        intro hev
        rcases List.mem_append.mp hev with h | h
        · rcases List.mem_append.mp h with h2 | h2
          · simp [noUS_socketLeaveChannels u id _ _ ev h2]
          · simp [noUS_cleanupRooms u id env.roomEnv 0 rooms rosters ev h2]
        · simp at h
          subst h
          simp [isUserSocketsFailure]

/-- C7 counterexample: a removeUserSocket execution in which the transport
channel leave for the single removed room fails resolves normally, and the
error is reported through the consistency-failure channel with opType
transportChannel, not userSockets; the claim that every sub-step error is
reported with opType userSockets is false. -/
theorem c7_counterexample :
    ((removeUserSocket "u" "s1"
        ⟨Except.ok ([("r1", 1)], 0),
          fun _ => ⟨some (Err.transport 2), none, none, Except.ok true⟩, none⟩
        (fun _ => true)).2.1.filter isConsistencyFailure) =
      [Event.transportConsistencyFailure (Err.transport 2)
        ⟨some "transportChannel", some "r1", some "s1", some "u"⟩] ∧
    ((removeUserSocket "u" "s1"
        ⟨Except.ok ([("r1", 1)], 0),
          fun _ => ⟨some (Err.transport 2), none, none, Except.ok true⟩, none⟩
        (fun _ => true)).2.1.filter isUserSocketsFailure) = [] ∧
    (removeUserSocket "u" "s1"
        ⟨Except.ok ([("r1", 1)], 0),
          fun _ => ⟨some (Err.transport 2), none, none, Except.ok true⟩, none⟩
        (fun _ => true)).2.2 = Except.ok () := by
  refine ⟨rfl, rfl, rfl⟩

/-- C7 amended: removeUserSocket never rejects; an error that escapes its
generator run (one from the initial shared-store socket removal or the final
bookkeeping removal) is reported exactly once as a consistency failure with
opType userSockets carrying the socket id; errors of the channel-leave and
per-room cleanup sub-steps are absorbed deeper with their own opTypes and
yield no userSockets report. -/
theorem c7_removeUserSocket_resolves (userName id : String) (env : RemoveSocketEnv)
    (rosters : String → Bool) :
    (removeUserSocket userName id env rosters).2.2 = Except.ok () ∧
    (∀ e, (removeUserSocketRun userName id env rosters).2.2 = Except.error e →
      (removeUserSocket userName id env rosters).2.1.filter isUserSocketsFailure =
        [consistencyFailure userName e ⟨some "userSockets", none, some id, none⟩]) ∧
    ((removeUserSocketRun userName id env rosters).2.2 = Except.ok () →
      (removeUserSocket userName id env rosters).2.1.filter isUserSocketsFailure = []) := by
  refine ⟨?_, ?_, ?_⟩
  · rw [removeUserSocket]
    cases hr : (removeUserSocketRun userName id env rosters).2.2 with
    | error e => simp [hr]
    | ok v => simp [hr]
  · intro e hr
    rw [removeUserSocket]
    simp only [hr]
    rw [List.filter_append, noUS_removeUserSocketRun]
    simp [consistencyFailure, isUserSocketsFailure]
  · intro hr
    rw [removeUserSocket]
    simp only [hr]
    exact noUS_removeUserSocketRun userName id env rosters

/-- Witness for the amended C7 at a concrete input: the initial shared-store
socket removal fails. -/
theorem c7_removeUserSocket_resolves_witness :
    (removeUserSocket "u" "s1"
        ⟨Except.error (Err.store 9), fun _ => ⟨none, none, none, Except.ok true⟩, none⟩
        (fun _ => true)).2.2 = Except.ok () ∧
    ((removeUserSocket "u" "s1"
        ⟨Except.error (Err.store 9), fun _ => ⟨none, none, none, Except.ok true⟩, none⟩
        (fun _ => true)).2.1.filter isUserSocketsFailure) =
      [consistencyFailure "u" (Err.store 9) ⟨some "userSockets", none, some "s1", none⟩] :=
  ⟨(c7_removeUserSocket_resolves "u" "s1"
      ⟨Except.error (Err.store 9), fun _ => ⟨none, none, none, Except.ok true⟩, none⟩
      (fun _ => true)).1,
   (c7_removeUserSocket_resolves "u" "s1"
      ⟨Except.error (Err.store 9), fun _ => ⟨none, none, none, Except.ok true⟩, none⟩
      (fun _ => true)).2.1 (Err.store 9) rfl⟩

theorem filter_leaveChannel_eq_nil (p : Event → Bool)
    (hp : ∀ e i, p (Event.transportConsistencyFailure e i) = false)
    (u id ch : String) (f : Option Err) :
    (leaveChannel u id ch f).filter p = [] := by
  cases f with
  | none => rfl
  | some e => simp [leaveChannel, consistencyFailure, hp]

theorem filter_socketLeaveChannels_eq_nil (p : Event → Bool)
    (hp : ∀ e i, p (Event.transportConsistencyFailure e i) = false)
    (u id : String) (chs : List String) (fails : Nat → Option Err) :
    (socketLeaveChannels u id chs fails).filter p = [] := by
  rw [List.filter_eq_nil_iff]
  intro ev hev
  simp only [socketLeaveChannels, List.mem_flatten, List.mem_map] at hev
  obtain ⟨l, ⟨q, _, hl⟩, hmem⟩ := hev
  subst hl
  have h := filter_leaveChannel_eq_nil p hp u id q.2 (fails q.1)
  rw [List.filter_eq_nil_iff] at h
  exact h ev hmem

theorem filter_leaveRoomB_eq_nil (p : Event → Bool)
    (hp : ∀ e i, p (Event.storeConsistencyFailure e i) = false)
    (u r : String) (g l : Option Err) (roster : Bool) :
    ((leaveRoomB u r g l roster).2).filter p = [] := by
  cases g <;> cases l <;> simp [leaveRoomB, consistencyFailure, hp]

theorem cleanupRoom_zero (u id : String) (pr : PerRoomEnv) (roomName : String)
    (rosters : String → Bool) :
    cleanupRoom u id pr roomName 0 rosters =
      (updateRoster rosters roomName
        (leaveRoomB u roomName pr.lrGetRoomFails pr.lrRoomLeaveFails (rosters roomName)).1,
       Event.socketLeftEcho id roomName 0 none ::
         ((leaveRoomB u roomName pr.lrGetRoomFails pr.lrRoomLeaveFails (rosters roomName)).2 ++
           [Event.userLeftRoomReport u roomName (getNotifySettings pr.notifyRes)])) := by
  simp [cleanupRoom]

theorem cleanupRoom_pos (u id : String) (pr : PerRoomEnv) (roomName : String)
    (nj : Nat) (rosters : String → Bool) (h : nj ≠ 0) :
    cleanupRoom u id pr roomName nj rosters =
      (rosters, [Event.socketLeftEcho id roomName nj none]) := by
  simp [cleanupRoom, h]

theorem cleanupRooms_filter_leftEcho (u id : String) (roomEnv : Nat → PerRoomEnv)
    (idx : Nat) (rooms : List (String × Nat)) (rosters : String → Bool) :
    ((cleanupRooms u id roomEnv idx rooms rosters).2).filter isLeftEcho =
      rooms.map (fun p => Event.socketLeftEcho id p.1 p.2 none) := by
  induction rooms generalizing idx rosters with
  | nil => rfl
  | cons hd tl ih =>
    obtain ⟨roomName, nj⟩ := hd
    simp only [cleanupRooms, List.filter_append, ih, List.map]
    by_cases hnj : nj = 0
    · subst hnj
      rw [cleanupRoom_zero]
      rw [List.filter_cons_of_pos (by rfl)]
      rw [List.filter_append,
        filter_leaveRoomB_eq_nil isLeftEcho (fun e i => rfl) u roomName _ _ _]
      rfl
    · rw [cleanupRoom_pos u id (roomEnv idx) roomName nj rosters hnj]
      rfl

theorem cleanupRooms_filter_report (u id : String) (roomEnv : Nat → PerRoomEnv)
    (idx : Nat) (rooms : List (String × Nat)) (rosters : String → Bool) :
    ((cleanupRooms u id roomEnv idx rooms rosters).2).filter isUserLeftReport =
      ((List.enumFrom idx rooms).filter (fun q => q.2.2 == 0)).map
        (fun q => Event.userLeftRoomReport u q.2.1
          (getNotifySettings (roomEnv q.1).notifyRes)) := by
  induction rooms generalizing idx rosters with
  | nil => rfl
  | cons hd tl ih =>
    obtain ⟨roomName, nj⟩ := hd
    simp only [cleanupRooms, List.filter_append, ih, List.enumFrom]
    by_cases hnj : nj = 0
    · subst hnj
      rw [cleanupRoom_zero]
      rw [List.filter_cons_of_neg (by simp [isUserLeftReport])]
      rw [List.filter_append,
        filter_leaveRoomB_eq_nil isUserLeftReport (fun e i => rfl) u roomName _ _ _]
      rw [List.filter_cons_of_pos (by simp [isUserLeftReport])]
      simp
    · rw [cleanupRoom_pos u id (roomEnv idx) roomName nj rosters hnj]
      rw [List.filter_cons_of_neg (by simp [isUserLeftReport]), List.filter_nil]
      have hb : (nj == 0) = false := by simp [hnj]
      simp [hb]

theorem cleanupRooms_rosters (u id : String) (roomEnv : Nat → PerRoomEnv)
    (idx : Nat) (rooms : List (String × Nat)) (rosters : String → Bool)
    (hclean : ∀ i, (roomEnv i).lrGetRoomFails = none ∧ (roomEnv i).lrRoomLeaveFails = none) :
    ∀ r, (cleanupRooms u id roomEnv idx rooms rosters).1 r =
      if rooms.any (fun q => q.1 == r && q.2 == 0) then false else rosters r := by
  induction rooms generalizing idx rosters with
  | nil => intro r; rfl
  | cons hd tl ih =>
    intro r
    obtain ⟨roomName, nj⟩ := hd
    simp only [cleanupRooms]
    by_cases hnj : nj = 0
    · subst hnj
      obtain ⟨hg, hl⟩ := hclean idx
      rw [cleanupRoom_zero, hg, hl]
      rw [ih (idx + 1)]
      by_cases hr : roomName = r <;>
        by_cases htl : (tl.any fun q => q.1 == r && q.2 == 0) = true <;>
        simp_all [updateRoster, leaveRoomB, List.any_cons]
      exact fun _ h => hr h.symm
    · rw [cleanupRoom_pos u id (roomEnv idx) roomName nj rosters hnj]
      rw [ih (idx + 1)]
      have hb : (nj == 0) = false := by simp [hnj]
      simp [List.any_cons, hb]

/-- C6: for every removeUserSocket execution in which the shared store
reports removed rooms with per-room remaining user counts, a per-socket left
echo is emitted for every removed room, the user-left-room report is emitted
exactly for the rooms whose remaining count is zero, and (when the per-room
roster calls succeed) the user leaves the roster of exactly the zero-count
rooms. -/
theorem c6_removeUserSocket_reports (userName id : String) (env : RemoveSocketEnv)
    (rosters : String → Bool) (rooms : List (String × Nat)) (nconnected : Nat)
    (hres : env.userRemoveRes = Except.ok (rooms, nconnected))
    (hclean : ∀ i, (env.roomEnv i).lrGetRoomFails = none ∧
      (env.roomEnv i).lrRoomLeaveFails = none) :
    (removeUserSocket userName id env rosters).2.1.filter isLeftEcho =
      rooms.map (fun p => Event.socketLeftEcho id p.1 p.2 none) ∧
    (removeUserSocket userName id env rosters).2.1.filter isUserLeftReport =
      ((List.enumFrom 0 rooms).filter (fun q => q.2.2 == 0)).map
        (fun q => Event.userLeftRoomReport userName q.2.1
          (getNotifySettings (env.roomEnv q.1).notifyRes)) ∧
    (∀ r : String, (removeUserSocket userName id env rosters).1 r =
      if rooms.any (fun q => q.1 == r && q.2 == 0) then false else rosters r) := by
  have hrunEvents : (removeUserSocketRun userName id env rosters).2.1 =
      socketLeaveChannels userName id (rooms.map Prod.fst) (fun i => (env.roomEnv i).chFails) ++
      (cleanupRooms userName id env.roomEnv 0 rooms rosters).2 ++
      [Event.socketDisconnectEcho id nconnected] := by
    cases hfin : env.stateRemoveFails <;> simp only [removeUserSocketRun, hres, hfin]
  have hrunState : (removeUserSocketRun userName id env rosters).1 =
      (cleanupRooms userName id env.roomEnv 0 rooms rosters).1 := by
    cases hfin : env.stateRemoveFails <;> simp only [removeUserSocketRun, hres, hfin]
  have hfilter : ∀ p : Event → Bool,
      p (Event.socketDisconnectEcho id nconnected) = false →
      (∀ e i, p (Event.transportConsistencyFailure e i) = false) →
      (∀ e i, p (Event.storeConsistencyFailure e i) = false) →
      (removeUserSocket userName id env rosters).2.1.filter p =
        ((cleanupRooms userName id env.roomEnv 0 rooms rosters).2).filter p := by
    intro p hdisc htr hst
    rw [removeUserSocket]
    cases hr : (removeUserSocketRun userName id env rosters).2.2 with
    | error e =>
      simp only [hr]
      rw [List.filter_append, hrunEvents, List.filter_append, List.filter_append]
      rw [filter_socketLeaveChannels_eq_nil p htr]
      have hcf : (([consistencyFailure userName e
          ⟨some "userSockets", none, some id, none⟩] : List Event).filter p) = [] := by
        simp [consistencyFailure, htr, hst]
      rw [hcf]
      simp [hdisc]
    | ok v =>
      simp only [hr]
      rw [hrunEvents, List.filter_append, List.filter_append]
      rw [filter_socketLeaveChannels_eq_nil p htr]
      simp [hdisc]
  have hstate : (removeUserSocket userName id env rosters).1 =
      (cleanupRooms userName id env.roomEnv 0 rooms rosters).1 := by
    rw [removeUserSocket]
    cases hr : (removeUserSocketRun userName id env rosters).2.2 with
    | error e => simp only [hr]; exact hrunState
    | ok v => simp only [hr]; exact hrunState
  refine ⟨?_, ?_, ?_⟩
  · rw [hfilter isLeftEcho rfl (fun e i => rfl) (fun e i => rfl)]
    exact cleanupRooms_filter_leftEcho userName id env.roomEnv 0 rooms rosters
  · rw [hfilter isUserLeftReport rfl (fun e i => rfl) (fun e i => rfl)]
    exact cleanupRooms_filter_report userName id env.roomEnv 0 rooms rosters
  · intro r
    rw [hstate]
    exact cleanupRooms_rosters userName id env.roomEnv 0 rooms rosters hclean r

/-- Witness for C6 at the spec's scenario: a socket in three rooms, the
user's last socket in two of them, yields three per-socket left echoes and
exactly two user-left-room reports, and the roster drops exactly the two
zero-count rooms. -/
theorem c6_removeUserSocket_reports_witness :
    (removeUserSocket "u" "s1"
        ⟨Except.ok ([("r1", 0), ("r2", 1), ("r3", 0)], 0),
          fun _ => ⟨none, none, none, Except.ok true⟩, none⟩
        (fun _ => true)).2.1.filter isLeftEcho =
      [Event.socketLeftEcho "s1" "r1" 0 none, Event.socketLeftEcho "s1" "r2" 1 none,
        Event.socketLeftEcho "s1" "r3" 0 none] ∧
    (removeUserSocket "u" "s1"
        ⟨Except.ok ([("r1", 0), ("r2", 1), ("r3", 0)], 0),
          fun _ => ⟨none, none, none, Except.ok true⟩, none⟩
        (fun _ => true)).2.1.filter isUserLeftReport =
      [Event.userLeftRoomReport "u" "r1" (some true),
        Event.userLeftRoomReport "u" "r3" (some true)] ∧
    (removeUserSocket "u" "s1"
        ⟨Except.ok ([("r1", 0), ("r2", 1), ("r3", 0)], 0),
          fun _ => ⟨none, none, none, Except.ok true⟩, none⟩
        (fun _ => true)).1 "r2" = true ∧
    (removeUserSocket "u" "s1"
        ⟨Except.ok ([("r1", 0), ("r2", 1), ("r3", 0)], 0),
          fun _ => ⟨none, none, none, Except.ok true⟩, none⟩
        (fun _ => true)).1 "r3" = false := by
  have h := c6_removeUserSocket_reports "u" "s1"
    ⟨Except.ok ([("r1", 0), ("r2", 1), ("r3", 0)], 0),
      fun _ => ⟨none, none, none, Except.ok true⟩, none⟩
    (fun _ => true) [("r1", 0), ("r2", 1), ("r3", 0)] 0 rfl (fun i => ⟨rfl, rfl⟩)
  refine ⟨?_, ?_, ?_, ?_⟩
  · rw [h.1]; rfl
  · rw [h.2.1]; rfl
  · rw [h.2.2 "r2"]; rfl
  · rw [h.2.2 "r3"]; rfl

/-- C9: after both registrations of addUserSocket succeed, if the transport
has no live socket for the id, the full removeUserSocket cleanup runs (same
emissions, same roster outcome) and the call rejects with the noSocket
ChatServiceError; if the transport has the socket, the call resolves with
the user's new connection count. -/
theorem c9_addUserSocket_noSocket (userName id : String) (env : AddSocketEnv)
    (rosters : String → Bool) (n : Nat)
    (hAdd : env.stateAddFails = none) (hUser : env.userAddRes = Except.ok n) :
    (env.hasSocket = false →
      (addUserSocket userName id env rosters).2.2 =
        Except.error (Err.chatError "noSocket" "connection") ∧
      (addUserSocket userName id env rosters).2.1 =
        (removeUserSocket userName id env.removeEnv rosters).2.1 ∧
      ∀ r, (addUserSocket userName id env rosters).1 r =
        (removeUserSocket userName id env.removeEnv rosters).1 r) ∧
    (env.hasSocket = true →
      (addUserSocket userName id env rosters).2.2 = Except.ok n ∧
      (addUserSocket userName id env rosters).2.1 = []) := by
  constructor
  · intro hs
    simp only [addUserSocket, hAdd, hUser, hs]
    exact ⟨rfl, rfl, fun r => rfl⟩
  · intro hs
    simp only [addUserSocket, hAdd, hUser, hs]
    exact ⟨rfl, rfl⟩

/-- Witness for C9 at concrete inputs, covering both the missing-socket and
the live-socket outcome. -/
theorem c9_addUserSocket_noSocket_witness :
    (addUserSocket "u" "s1"
        ⟨none, Except.ok 1, false,
          ⟨Except.ok ([], 0), fun _ => ⟨none, none, none, Except.ok true⟩, none⟩⟩
        (fun _ => false)).2.2 =
      Except.error (Err.chatError "noSocket" "connection") ∧
    (addUserSocket "u" "s2"
        ⟨none, Except.ok 5, true,
          ⟨Except.ok ([], 0), fun _ => ⟨none, none, none, Except.ok true⟩, none⟩⟩
        (fun _ => false)).2.2 = Except.ok 5 :=
  ⟨((c9_addUserSocket_noSocket "u" "s1"
      ⟨none, Except.ok 1, false,
        ⟨Except.ok ([], 0), fun _ => ⟨none, none, none, Except.ok true⟩, none⟩⟩
      (fun _ => false) 1 rfl rfl).1 rfl).1,
   ((c9_addUserSocket_noSocket "u" "s2"
      ⟨none, Except.ok 5, true,
        ⟨Except.ok ([], 0), fun _ => ⟨none, none, none, Except.ok true⟩, none⟩⟩
      (fun _ => false) 5 rfl rfl).2 rfl).1⟩

/-- Witness for C5 at a concrete input: first socket of the user joins an
empty room with notification updates enabled. -/
theorem c5_join_report_exact_witness :
    (joinSocketToRoom "u" "s1" "lobby" false
        ⟨none, none, none, Except.ok true, none, none, none, none, none⟩
        ⟨[], false⟩).2.2 =
      Except.ok (addSocketToRoom ⟨([] : List String), true⟩ "s1").2.1 ∧
    (Event.userJoinRoomReport "u" "lobby" ∈
        (joinSocketToRoom "u" "s1" "lobby" false
          ⟨none, none, none, Except.ok true, none, none, none, none, none⟩
          ⟨[], false⟩).2.1 ↔
      (addSocketToRoom ⟨([] : List String), true⟩ "s1").2.2 = true ∧
      (addSocketToRoom ⟨([] : List String), true⟩ "s1").2.1 = 1 ∧ true = true) :=
  c5_join_report_exact "u" "s1" "lobby" false
    ⟨none, none, none, Except.ok true, none, none, none, none, none⟩
    ⟨[], false⟩ true rfl rfl rfl rfl rfl rfl

/-- Witness for the amended C2 at a concrete input: first socket of the user
joins an empty room, hasChanged is true and the echo is emitted. -/
theorem c2_join_echo_iff_hasChanged_witness :
    (Event.socketJoinEcho "s1" "lobby"
        (addSocketToRoom ⟨([] : List String), true⟩ "s1").2.1 false ∈
      (joinSocketToRoom "u" "s1" "lobby" false
        ⟨none, none, none, Except.ok true, none, none, none, none, none⟩
        ⟨[], false⟩).2.1) ↔
      (addSocketToRoom ⟨([] : List String), true⟩ "s1").2.2 = true :=
  c2_join_echo_iff_hasChanged "u" "s1" "lobby" false
    ⟨none, none, none, Except.ok true, none, none, none, none, none⟩
    ⟨[], false⟩ true rfl rfl rfl rfl rfl rfl

end ChatService
